import Mathlib

/-!
Verification development for the Scientific Data Analysis Tool
(`project1.py`): a shallow embedding of the data generator
`create_dummy_data` and the analyzer `process_and_analyze`, together with
theorems about cleaning, statistics plumbing, determinism and error
behaviour.

Modelling conventions:
* numeric values are real numbers; a missing value (NaN / empty CSV cell)
  is `none` in `Option ℝ`;
* NumPy's global pseudo-random generator is abstracted by a structure
  `NPRandom`: `seed` turns a seed value into a generator state, `normal`
  takes a state, the location, the scale and the number of draws and
  returns the draws (indexed) together with the advanced state;
* the file system is a map from file names to optional CSV contents;
* Python name resolution in `process_and_analyze` is modelled by the list
  of names bound in its local scope plus the module-level globals; the
  f-string of the fit-line label reads the name `resistance`, which is a
  local of `create_dummy_data` and hence not in scope, so the plotting
  step raises a `NameError`.
-/

namespace Project1

/-- A CSV cell: either a numeric value or missing (NaN / empty field). -/
abbrev Cell := Option ℝ

/-- One data row of the CSV file: `(Current_A, Voltage_V)`. -/
abbrev Row := Cell × Cell

/-- A CSV file: the header line and the data rows. -/
structure CSVFile where
  header : String
  rows : List Row

/-- The file system, mapping file names to the CSV contents stored there. -/
abbrev FileSystem := String → Option CSVFile

/-- Abstraction of NumPy's global RNG.  `seed s` is the generator state
obtained from `np.random.seed(s)`; `normal g loc scale size` returns the
draws of `np.random.normal(loc, scale, size)` (as a function from the
index to the draw) together with the advanced state. -/
structure NPRandom where
  seed : ℕ → ℕ
  normal : ℕ → ℝ → ℝ → ℕ → (ℕ → ℝ) × ℕ

/-- `np.linspace a b n` evaluated at index `i`: `a + (b - a) * i / (n-1)`. -/
noncomputable def linspaceVal (a b : ℝ) (n i : ℕ) : ℝ :=
  a + (b - a) * i / ((n : ℝ) - 1)

/-- Embedding of `create_dummy_data(filename)` (src/project1.py lines
6-28).  `g0` is the incoming state of NumPy's global RNG; the function
overwrites it with `np.random.seed(42)` before drawing the noise.  The
result is the CSV content written to `filename` together with the
function's return value (the filename). -/
noncomputable def create_dummy_data (rng : NPRandom) (g0 : ℕ)
    (filename : String) : CSVFile × String :=
  let _ := g0
  let g1 := rng.seed 42
  let current : List ℝ := (List.range 50).map (fun i => linspaceVal 0 10 50 i)
  let resistance : ℝ := 5
  let noise : ℕ → ℝ := (rng.normal g1 0 2.5 50).1
  let voltage : List ℝ :=
    (List.range 50).map (fun i => linspaceVal 0 10 50 i * resistance + noise i)
  let voltageCells : List Cell := ((voltage.map some).set 5 none).set 15 none
  ({ header := "Current_A,Voltage_V",
     rows := (current.map some).zip voltageCells }, filename)

/-- A row has a missing field (`df.isnull()` on that row is somewhere true). -/
def hasNull (r : Row) : Bool := r.1.isNone || r.2.isNone

/-- `df.isnull().values.any()`: some row has a missing field. -/
def anyNull (rows : List Row) : Bool := rows.any hasNull

/-- `df.dropna()`: keep exactly the rows with no missing field. -/
def dropna (rows : List Row) : List Row := rows.filter (fun r => !hasNull r)

/-- The cleaning step of `process_and_analyze` (lines 45-47): drop
incomplete rows, but only when a missing value was detected. -/
def cleanRows (rows : List Row) : List Row :=
  if anyNull rows then dropna rows else rows

/-- `df['Current_A'].values` (line 52); after the cleaning step every cell
is present, so the default value of `getD` is never used. -/
def columnCurrent (rows : List Row) : List ℝ := rows.map (fun r => r.1.getD 0)

/-- `df['Voltage_V'].values` (line 53). -/
def columnVoltage (rows : List Row) : List ℝ := rows.map (fun r => r.2.getD 0)

/-- `np.mean` on a 1-d array. -/
noncomputable def npMean (l : List ℝ) : ℝ := l.sum / l.length

/-- `np.var` on a 1-d array (population variance). -/
noncomputable def npVar (l : List ℝ) : ℝ :=
  ((l.map (fun x => (x - npMean l) ^ 2)).sum) / l.length

/-- `np.std` on a 1-d array. -/
noncomputable def npStd (l : List ℝ) : ℝ := Real.sqrt (npVar l)

/-- `np.corrcoef(xs, ys)[0, 1]`: covariance over the product of standard
deviations (the normalisation of the covariance cancels either way). -/
noncomputable def npCorrcoef (xs ys : List ℝ) : ℝ :=
  (((xs.zip ys).map (fun p => (p.1 - npMean xs) * (p.2 - npMean ys))).sum
      / xs.length) / (npStd xs * npStd ys)

/-- `np.polyfit(xs, ys, 1)`: slope and intercept of the least-squares
line through the points. -/
noncomputable def polyfit1 (xs ys : List ℝ) : ℝ × ℝ :=
  let n : ℝ := xs.length
  let sx := xs.sum
  let sy := ys.sum
  let sxx := (xs.map (fun x => x * x)).sum
  let sxy := ((xs.zip ys).map (fun p => p.1 * p.2)).sum
  let slope := (n * sxy - sx * sy) / (n * sxx - sx * sx)
  (slope, (sy - slope * sx) / n)

/-- The statistics block of `process_and_analyze` (lines 59-73), computed
from the rows the analyzer holds after cleaning. -/
structure Stats where
  mean_v : ℝ
  mean_i : ℝ
  var_v : ℝ
  std_v : ℝ
  correlation : ℝ

/-- The statistics the analyzer computes from a list of rows. -/
noncomputable def statsOfRows (rows : List Row) : Stats :=
  let current := columnCurrent rows
  let voltage := columnVoltage rows
  { mean_v := npMean voltage
    mean_i := npMean current
    var_v := npVar voltage
    std_v := npStd voltage
    correlation := npCorrcoef current voltage }

/-- A Python runtime error relevant to this program. -/
inductive PyErr where
  | nameError (name : String)
deriving DecidableEq

/-- The plot that lines 77-95 would build and show. -/
structure PlotSpec where
  xs : List ℝ
  ys : List ℝ
  slope : ℝ
  intercept : ℝ
  title : String
  xlabel : String
  ylabel : String
  legendShown : Bool
  gridShown : Bool

/-- Names bound in the local scope of `process_and_analyze` by the time
line 85 executes (every name the function assigns). -/
def process_and_analyze_locals : List String :=
  ["filename", "df", "current", "voltage", "mean_v", "mean_i",
   "var_v", "std_v", "correlation", "m", "b"]

/-- Module-level names of project1.py when it runs as a script. -/
def module_globals : List String :=
  ["pd", "np", "plt", "os", "create_dummy_data", "process_and_analyze",
   "data_file"]

/-- Python name resolution inside `process_and_analyze`: local scope,
then module globals (there is no enclosing function scope). -/
def nameInAnalyzerScope (s : String) : Bool :=
  process_and_analyze_locals.contains s || module_globals.contains s

/-- The name interpolated into the fit-line label at line 85:
`f'Linear Fit (R={resistance}Ω approx)'`. -/
def fitLabelNameRef : String := "resistance"

/-- The visualization step (lines 77-95).  Evaluating the label of the
fitted line reads the name `resistance`; if the name is not in scope the
step raises `NameError`, otherwise the labelled plot is shown. -/
noncomputable def renderPlot (current voltage : List ℝ)
    (slope intercept : ℝ) : Except PyErr PlotSpec :=
  if nameInAnalyzerScope fitLabelNameRef then
    .ok { xs := current
          ys := voltage
          slope := slope
          intercept := intercept
          title := "V-I Characteristics (Ohm\x27s Law Experiment)"
          xlabel := "Current (A)"
          ylabel := "Voltage (V)"
          legendShown := true
          gridShown := true }
  else
    .error (.nameError fitLabelNameRef)

/-- Outcome of a run of `process_and_analyze`. -/
inductive AnalyzeResult where
  | fileNotFound (message : String)
  | raised (statsSoFar : Stats) (err : PyErr)
  | completed (stats : Stats) (plot : PlotSpec)

/-- Embedding of `process_and_analyze(filename)` (lines 30-95).  The
function only reads the file system, so the returned file system is the
one passed in; the second component is the observable outcome. -/
noncomputable def process_and_analyze (fs : FileSystem) (filename : String) :
    FileSystem × AnalyzeResult :=
  match fs filename with
  | none => (fs, .fileNotFound ("Error: File " ++ filename ++ " not found."))
  | some file =>
    let df := file.rows
    let dfClean := cleanRows df
    let current := columnCurrent dfClean
    let voltage := columnVoltage dfClean
    let stats := statsOfRows dfClean
    let fit := polyfit1 current voltage
    match renderPlot current voltage fit.1 fit.2 with
    | .error e => (fs, .raised stats e)
    | .ok plot => (fs, .completed stats plot)

/-- The uncaught runtime error of a run, if any. -/
def uncaughtError : AnalyzeResult → Option PyErr
  | .raised _ e => some e
  | _ => none

/-- The statistics a run computed (whether or not it later raised). -/
noncomputable def reportedStats : AnalyzeResult → Option Stats
  | .raised s _ => some s
  | .completed s _ => some s
  | _ => none

/-- A concrete RNG used to instantiate theorems on explicit inputs: the
state is the seed itself and every normal draw is `0`. -/
noncomputable def rngZero : NPRandom :=
  { seed := fun n => n
    normal := fun g _ _ _ => (fun _ => 0, g) }

/-- The CSV content the generator writes for a given RNG and incoming
RNG state. -/
noncomputable def genFile (rng : NPRandom) (g0 : ℕ) : CSVFile :=
  (create_dummy_data rng g0 "experiment_data.csv").1

/-- A file system holding only the generated demo file. -/
noncomputable def fsDemo : FileSystem := fun n =>
  if n = "experiment_data.csv" then some (genFile rngZero 0) else none

/-- The empty file system. -/
def emptyFS : FileSystem := fun _ => none

/-! ### Helper lemmas -/

/-- Setting two positions of a map over `List.range` to `none` is the map
with those two positions replaced. -/
theorem set_set_map_range (n a b : ℕ) (ha : a < n) (hb : b < n)
    (f : ℕ → Cell) :
    ((((List.range n).map f).set a none).set b none)
      = (List.range n).map (fun i => if i = a ∨ i = b then none else f i) := by
  apply List.ext_getElem (by simp)
  intro i h1 h2
  simp only [List.getElem_set, List.getElem_map, List.getElem_range]
  rcases eq_or_ne i b with rfl | hib
  · simp
  · rcases eq_or_ne i a with rfl | hia
    · simp [Ne.symm hib, hib]
    · simp [Ne.symm hib, Ne.symm hia, hib, hia]

/-- The rows the generator writes, in closed form: row `i` pairs the
`i`-th linspace value with `current*5 + noise` except at indices 5 and
15, which hold a missing voltage. -/
theorem create_dummy_data_rows_eq (rng : NPRandom) (g0 : ℕ) (fname : String) :
    (create_dummy_data rng g0 fname).1.rows
      = (List.range 50).map (fun i =>
          (some (linspaceVal 0 10 50 i),
           if i = 5 ∨ i = 15 then none
           else some (linspaceVal 0 10 50 i * 5
              + (rng.normal (rng.seed 42) 0 2.5 50).1 i))) := by
  show ((((List.range 50).map (fun i => linspaceVal 0 10 50 i)).map some).zip
      (((((List.range 50).map
            (fun i => linspaceVal 0 10 50 i * 5
              + (rng.normal (rng.seed 42) 0 2.5 50).1 i)).map some).set 5
          none).set 15 none)) = _
  rw [List.map_map, List.map_map,
    set_set_map_range 50 5 15 (by norm_num) (by norm_num),
    List.zip_map']
  rfl

/-- The generator writes exactly 50 data rows. -/
theorem gen_rows_length (rng : NPRandom) (g0 : ℕ) (fname : String) :
    (create_dummy_data rng g0 fname).1.rows.length = 50 := by
  rw [create_dummy_data_rows_eq]
  simp

/-- Exactly two generated rows have a missing field. -/
theorem gen_countP_hasNull (rng : NPRandom) (g0 : ℕ) (fname : String) :
    (create_dummy_data rng g0 fname).1.rows.countP hasNull = 2 := by
  rw [create_dummy_data_rows_eq, List.countP_map]
  trans (List.range 50).countP (fun i => decide (i = 5 ∨ i = 15))
  · apply List.countP_congr
    intro i _
    by_cases h : i = 5 ∨ i = 15 <;> simp [hasNull, h]
  · decide

/-- The generated rows contain a missing value. -/
theorem gen_anyNull (rng : NPRandom) (g0 : ℕ) (fname : String) :
    anyNull (create_dummy_data rng g0 fname).1.rows = true := by
  rw [anyNull, create_dummy_data_rows_eq, List.any_eq_true]
  refine ⟨_, List.mem_map.mpr ⟨5, by simp, rfl⟩, ?_⟩
  simp [hasNull]

/-- The counts of rows failing and satisfying a Boolean predicate add up
to the length. -/
theorem countP_not_add_countP (p : Row → Bool) (l : List Row) :
    l.countP (fun r => !p r) + l.countP p = l.length := by
  induction l with
  | nil => simp
  | cons x xs ih =>
    by_cases h : p x <;> simp [List.countP_cons, h, ← ih] <;> omega

/-- Cleaning keeps the rows with no missing field, stated as a count. -/
theorem length_cleanRows (rows : List Row) :
    (cleanRows rows).length = rows.length - rows.countP hasNull := by
  rw [cleanRows]
  by_cases h : anyNull rows
  · rw [if_pos h, dropna, ← List.countP_eq_length_filter]
    have hsplit := countP_not_add_countP hasNull rows
    omega
  · rw [if_neg h]
    have h0 : rows.countP hasNull = 0 := by
      rw [List.countP_eq_zero]
      intro a ha
      by_contra hc
      exact h (List.any_eq_true.mpr ⟨a, ha, by simpa using hc⟩)
    omega

/-- Every row surviving the cleaning step has both fields present. -/
theorem cleanRows_no_null (rows : List Row) :
    ∀ r ∈ cleanRows rows, hasNull r = false := by
  intro r hr
  rw [cleanRows] at hr
  by_cases h : anyNull rows
  · rw [if_pos h, dropna] at hr
    have := List.of_mem_filter hr
    simpa using this
  · rw [if_neg h] at hr
    have hfalse : rows.any hasNull = false := by
      simpa [anyNull] using h
    have := List.any_eq_false.mp hfalse r hr
    simpa using this

/-- The cleaned rows form a sublist of the original rows. -/
theorem cleanRows_sublist (rows : List Row) :
    (cleanRows rows).Sublist rows := by
  rw [cleanRows]
  by_cases h : anyNull rows
  · rw [if_pos h]
    exact List.filter_sublist rows
  · rw [if_neg h]

/-- Cleaning the generated dataset keeps 48 of the 50 rows. -/
theorem gen_clean_length (rng : NPRandom) (g0 : ℕ) (fname : String) :
    (cleanRows (create_dummy_data rng g0 fname).1.rows).length = 48 := by
  rw [length_cleanRows, gen_rows_length, gen_countP_hasNull]

/-- The renderer of the visualization step always raises `NameError` on
the name `resistance`: the name is not in the analyzer's scope. -/
theorem renderPlot_raises (current voltage : List ℝ) (slope intercept : ℝ) :
    renderPlot current voltage slope intercept
      = .error (.nameError "resistance") := by
  rw [renderPlot, if_neg]
  · rfl
  · decide

/-! ### Claim theorems -/

/-- C2: if the input file does not exist, `process_and_analyze` prints an
error message and returns: the file system is untouched and the outcome
records nothing but the message — no load, no statistics, no plot. -/
theorem missing_file_fast_fail (fs : FileSystem) (filename : String)
    (h : fs filename = none) :
    process_and_analyze fs filename
      = (fs, .fileNotFound ("Error: File " ++ filename ++ " not found.")) := by
  rw [process_and_analyze, h]

/-- Witness for `missing_file_fast_fail`, at the empty file system. -/
theorem missing_file_fast_fail_witness :
    emptyFS "experiment_data.csv" = none ∧
    process_and_analyze emptyFS "experiment_data.csv"
      = (emptyFS,
         .fileNotFound ("Error: File " ++ "experiment_data.csv"
            ++ " not found.")) :=
  ⟨rfl, missing_file_fast_fail emptyFS "experiment_data.csv" rfl⟩

/-- C6: on a dataset with no missing values the cleaning step drops
nothing: the rows — in particular the row count — are unchanged. -/
theorem clean_on_clean_identity (rows : List Row)
    (h : anyNull rows = false) :
    cleanRows rows = rows ∧ (cleanRows rows).length = rows.length := by
  have heq : cleanRows rows = rows := by
    rw [cleanRows, if_neg]
    simp [h]
  exact ⟨heq, by rw [heq]⟩

/-- Witness for `clean_on_clean_identity` on a concrete two-row dataset. -/
theorem clean_on_clean_identity_witness :
    anyNull [((some 1, some 2) : Row), (some 3, some 4)] = false ∧
    cleanRows [((some 1, some 2) : Row), (some 3, some 4)]
        = [((some 1, some 2) : Row), (some 3, some 4)] ∧
    (cleanRows [((some 1, some 2) : Row), (some 3, some 4)]).length
        = [((some 1, some 2) : Row), (some 3, some 4)].length :=
  ⟨rfl, clean_on_clean_identity _ rfl⟩

/-- C9: the generator is deterministic — whatever the state of NumPy's
global RNG when `create_dummy_data` is called, the same file contents
are produced, because `np.random.seed(42)` overwrites the state on every
call. -/
theorem generator_deterministic (rng : NPRandom) (g1 g2 : ℕ)
    (path : String) :
    create_dummy_data rng g1 path = create_dummy_data rng g2 path := rfl

/-- C10: the cleaning step keeps the surviving rows in their original
order as whole records (a sublist of the input), and the extracted
current and voltage columns are parallel arrays of equal length whose
zip recovers exactly the surviving records — every surviving current
value stays paired with its original voltage value. -/
theorem clean_order_and_pairing (rows : List Row) :
    (cleanRows rows).Sublist rows ∧
    (columnCurrent (cleanRows rows)).length
        = (columnVoltage (cleanRows rows)).length ∧
    (columnCurrent (cleanRows rows)).zip (columnVoltage (cleanRows rows))
        = (cleanRows rows).map (fun r => (r.1.getD 0, r.2.getD 0)) := by
  refine ⟨cleanRows_sublist rows, ?_, ?_⟩
  · simp [columnCurrent, columnVoltage]
  · rw [columnCurrent, columnVoltage, List.zip_map']

/-- C8: the analyzer never mutates the dataset: the file system after a
run is the one before it, and every record of the cleaned copy is one of
the loaded records, kept intact. -/
theorem analyzer_no_mutation (fs : FileSystem) (filename : String) :
    (process_and_analyze fs filename).1 = fs ∧
    ∀ rows : List Row, ∀ r ∈ cleanRows rows, r ∈ rows := by
  constructor
  · cases h : fs filename with
    | none => simp [process_and_analyze, h]
    | some file => simp [process_and_analyze, h, renderPlot_raises]
  · intro rows r hr
    exact (cleanRows_sublist rows).mem hr

/-- Witness for `analyzer_no_mutation`: the demo file system is returned
unchanged, and a concrete surviving record is an original record. -/
theorem analyzer_no_mutation_witness :
    (process_and_analyze fsDemo "experiment_data.csv").1 = fsDemo ∧
    (((some 1, some 2) : Row) ∈ cleanRows [((some 1, some 2) : Row)] →
      ((some 1, some 2) : Row) ∈ [((some 1, some 2) : Row)]) :=
  ⟨(analyzer_no_mutation fsDemo "experiment_data.csv").1,
   fun h => (analyzer_no_mutation fsDemo "experiment_data.csv").2 _ _ h⟩

/-- C4: in the generator's raw output exactly two voltage cells are
missing, the missing positions are exactly indices 5 and 15, and no
current cell is missing. -/
theorem generator_missing_positions (rng : NPRandom) (g0 : ℕ)
    (path : String) :
    ((create_dummy_data rng g0 path).1.rows.map (fun r => r.2.isNone))
        = (List.range 50).map (fun i => decide (i = 5 ∨ i = 15)) ∧
    (create_dummy_data rng g0 path).1.rows.countP (fun r => r.2.isNone) = 2 ∧
    (create_dummy_data rng g0 path).1.rows.countP (fun r => r.1.isNone) = 0 := by
  refine ⟨?_, ?_, ?_⟩
  · rw [create_dummy_data_rows_eq, List.map_map]
    apply List.map_congr_left
    intro i _
    by_cases h : i = 5 ∨ i = 15 <;> simp [h]
  · rw [create_dummy_data_rows_eq, List.countP_map]
    trans (List.range 50).countP (fun i => decide (i = 5 ∨ i = 15))
    · apply List.countP_congr
      intro i _
      by_cases h : i = 5 ∨ i = 15 <;> simp [h]
    · decide
  · rw [create_dummy_data_rows_eq, List.countP_map]
    rw [List.countP_eq_zero]
    intro i _
    by_cases h : i = 5 ∨ i = 15 <;> simp [h]

/-- C1 (code bug): on every existing input file the analyzer does not
complete: the fit-line label of the visualization step reads the name
`resistance`, which is local to `create_dummy_data` and not in scope in
`process_and_analyze`, so the run ends in an uncaught `NameError` and no
plot is shown. -/
theorem analyzer_raises_name_error (fs : FileSystem) (filename : String)
    (file : CSVFile) (h : fs filename = some file) :
    uncaughtError (process_and_analyze fs filename).2
      = some (.nameError "resistance") := by
  simp [process_and_analyze, h, renderPlot_raises, uncaughtError]

/-- Witness for `analyzer_raises_name_error`, on the generated file. -/
theorem analyzer_raises_name_error_witness :
    fsDemo "experiment_data.csv" = some (genFile rngZero 0) ∧
    uncaughtError (process_and_analyze fsDemo "experiment_data.csv").2
      = some (.nameError "resistance") :=
  ⟨rfl, analyzer_raises_name_error fsDemo "experiment_data.csv"
    (genFile rngZero 0) rfl⟩

/-- Counterexample to C3 as stated: in the generated file the voltage
cell of row 5 is missing, not `current × 5 + noise` (shown at the
concrete RNG `rngZero`, whose seeded draws are all `0`). -/
theorem generator_voltage_missing_at_5 :
    ((create_dummy_data rngZero 0 "experiment_data.csv").1.rows)[5]?
        = some (some (linspaceVal 0 10 50 5), none) ∧
    (none : Cell)
      ≠ some (linspaceVal 0 10 50 5 * 5
          + (rngZero.normal (rngZero.seed 42) 0 2.5 50).1 5) := by
  constructor
  · rw [create_dummy_data_rows_eq]
    norm_num [List.getElem?_map, List.getElem?_range]
  · simp

/-- C3 (amended): the generator writes the header `Current_A,Voltage_V`
and exactly 50 rows; the current column is the 50-point linspace over
`[0, 10]` — starting at 0, ending at 10, with constant step `10/49` —
and the voltage column is `current × 5` plus the draw of
`normal(0, 2.5, 50)` under the state seeded with 42, except at indices 5
and 15, which are missing. -/
theorem generator_output_shape (rng : NPRandom) (g0 : ℕ) (path : String) :
    (create_dummy_data rng g0 path).1.header = "Current_A,Voltage_V" ∧
    (create_dummy_data rng g0 path).1.rows.length = 50 ∧
    (create_dummy_data rng g0 path).1.rows
      = (List.range 50).map (fun i =>
          (some (linspaceVal 0 10 50 i),
           if i = 5 ∨ i = 15 then none
           else some (linspaceVal 0 10 50 i * 5
              + (rng.normal (rng.seed 42) 0 2.5 50).1 i))) ∧
    linspaceVal 0 10 50 0 = 0 ∧
    linspaceVal 0 10 50 49 = 10 ∧
    (∀ i : ℕ, linspaceVal 0 10 50 (i + 1) - linspaceVal 0 10 50 i
        = 10 / 49) := by
  refine ⟨rfl, gen_rows_length rng g0 path,
    create_dummy_data_rows_eq rng g0 path, ?_, ?_, ?_⟩
  · simp [linspaceVal]
  · norm_num [linspaceVal]
  · intro i
    rw [linspaceVal, linspaceVal]
    push_cast
    ring

/-- C5: after cleaning no record has a missing field; the cleaned row
count is the original count minus the number of rows with a missing
field — 48 of 50 on the generated dataset; and the statistics a run
reports are exactly the statistics of the cleaned rows. -/
theorem cleaning_invariant :
    (∀ rows : List Row, ∀ r ∈ cleanRows rows, hasNull r = false) ∧
    (∀ rows : List Row,
      (cleanRows rows).length = rows.length - rows.countP hasNull) ∧
    (∀ (rng : NPRandom) (g0 : ℕ) (path : String),
      (create_dummy_data rng g0 path).1.rows.length = 50 ∧
      (cleanRows (create_dummy_data rng g0 path).1.rows).length = 48) ∧
    (∀ (fs : FileSystem) (filename : String) (file : CSVFile),
      fs filename = some file →
      reportedStats (process_and_analyze fs filename).2
        = some (statsOfRows (cleanRows file.rows))) := by
  refine ⟨cleanRows_no_null, length_cleanRows, ?_, ?_⟩
  · intro rng g0 path
    exact ⟨gen_rows_length rng g0 path, gen_clean_length rng g0 path⟩
  · intro fs filename file h
    simp [process_and_analyze, h, renderPlot_raises, reportedStats]

/-- Witness for `cleaning_invariant`: its hypotheses discharged on a
concrete one-row dataset and on the demo file system. -/
theorem cleaning_invariant_witness :
    fsDemo "experiment_data.csv" = some (genFile rngZero 0) ∧
    hasNull ((some 1, some 2) : Row) = false ∧
    reportedStats (process_and_analyze fsDemo "experiment_data.csv").2
      = some (statsOfRows (cleanRows (genFile rngZero 0).rows)) :=
  ⟨rfl,
   cleaning_invariant.1 [((some 1, some 2) : Row)] (some 1, some 2)
     (show ((some 1, some 2) : Row) ∈ [((some 1, some 2) : Row)] from
       List.mem_singleton.mpr rfl),
   cleaning_invariant.2.2.2 fsDemo "experiment_data.csv"
     (genFile rngZero 0) rfl⟩

end Project1
